import Mathlib

/-!
A shallow embedding of the TrueID repository's two C clients.

* `src/c-client/src/dbis_api_client.c` — the DBIS HTTP API client.  The
  session state (`DBISClient`) and the handlers `init_client`,
  `register_user`, `login`, `grant_role`, `revoke_role`, `logout` are
  translated function by function.  Terminal input collection (prompts,
  `fgets`, password masking) is external to the embedded core: the collected
  inputs appear as function arguments, and the prompt strings printed while
  collecting them are not part of the modelled output.  The network exchange
  performed by libcurl is modelled by the `Exchange` type passed to each
  handler; the handler's observable behaviour (its C return value, the
  session after the call, the outcome-reporting lines printed to
  stdout/stderr after the exchange, and the number of `curl_easy_perform`
  calls made) is collected in a `HandlerResult`.

* `src/client/src/client.c` — the raw-socket client's ad-hoc response
  scanner `client_parse_json_response`, embedded over `List Char` together
  with faithful models of the C library search loops it uses
  (`strstr` as `findSub`, `strchr` as `strchrIdx`).

The JSON library json-c used by the C client is external code; it is
modelled by the `Json` inductive together with a strict recursive-descent
reader `json_tokener_parse` covering the JSON fragment exercised by the
server contract (objects, arrays, strings, booleans, null, integers).
-/

/-- JSON values as produced by json-c's tokener. -/
inductive Json where
  | str (s : String)
  | num (n : Int)
  | bool (b : Bool)
  | null
  | arr (items : List Json)
  | obj (fields : List (String × Json))

/-- Association-list lookup inside a JSON object (first matching key). -/
def alist_get : List (String × Json) → String → Option Json
  | [], _ => none
  | (k, v) :: rest, key => if k = key then some v else alist_get rest key

/-- Models `json_object_object_get_ex` on a non-NULL object pointer. -/
def jsonGet : Json → String → Option Json
  | Json.obj fields, key => alist_get fields key
  | _, _ => none

/-- Models `json_object_object_get_ex` where the object pointer may be NULL
(`json_tokener_parse` returning NULL makes every lookup fail). -/
def jsonGetOpt : Option Json → String → Option Json
  | some j, key => jsonGet j key
  | none, _ => none

/-- Models `json_object_get_string`.  On a string value json-c returns the
string itself; numbers and booleans are rendered.  For `null` json-c returns
a NULL pointer (the C client would then invoke undefined behaviour in
`strncpy`; no claim exercises that corner) and for arrays/objects json-c
returns a serialization; both are modelled as `""` here, and no claim
depends on those branches. -/
def json_object_get_string : Json → String
  | Json.str s => s
  | Json.num n => toString n
  | Json.bool true => "true"
  | Json.bool false => "false"
  | Json.null => ""
  | Json.arr _ => ""
  | Json.obj _ => ""

/-- The roles loop of `login` (lines 293-301): each element printed with
`json_object_get_string`, separated by ", ", on a single output line.
`json_object_array_length` on a non-array is not exercised; modelled as an
empty join. -/
def rolesJoined : Json → String
  | Json.arr items => String.intercalate ", " (items.map json_object_get_string)
  | _ => ""

/-- Whitespace skipping for the JSON reader. -/
def skipWs : List Char → List Char
  | [] => []
  | c :: rest =>
    if c = ' ' ∨ c = '\n' ∨ c = '\t' ∨ c = '\r' then skipWs rest else c :: rest

/-- Reads the body of a JSON string literal after the opening quote, up to
the closing quote; handles the usual backslash escapes. -/
def parseStringBody : List Char → Option (List Char × List Char)
  | [] => none
  | '"' :: rest => some ([], rest)
  | '\\' :: c :: rest =>
    let ch := if c = 'n' then '\n' else if c = 't' then '\t' else c
    match parseStringBody rest with
    | some (s, r) => some (ch :: s, r)
    | none => none
  | c :: rest =>
    match parseStringBody rest with
    | some (s, r) => some (c :: s, r)
    | none => none

/-- Digits consumed from the head of the input. -/
def takeDigits : List Char → List Char × List Char
  | [] => ([], [])
  | c :: rest =>
    if c.isDigit then
      let (d, r) := takeDigits rest
      (c :: d, r)
    else ([], c :: rest)

/-- Decimal digit list to a natural number. -/
def digitsToNat (ds : List Char) : Nat :=
  ds.foldl (fun acc c => acc * 10 + (c.toNat - 48)) 0

/-- Integer literals for the JSON reader. -/
def parseNumber (input : List Char) : Option (Json × List Char) :=
  match input with
  | '-' :: rest =>
    match takeDigits rest with
    | ([], _) => none
    | (ds, r) => some (Json.num (-(digitsToNat ds : Int)), r)
  | _ =>
    match takeDigits input with
    | ([], _) => none
    | (ds, r) => some (Json.num (digitsToNat ds), r)

mutual

/-- Fuel-indexed JSON value reader (models json-c's tokener on the JSON
fragment used by the server contract). -/
def parseValue : Nat → List Char → Option (Json × List Char)
  | 0, _ => none
  | Nat.succ fuel, input =>
    match skipWs input with
    | '"' :: rest =>
      match parseStringBody rest with
      | some (s, r) => some (Json.str (String.mk s), r)
      | none => none
    | '\x7b' :: rest =>
      match skipWs rest with
      | '\x7d' :: r => some (Json.obj [], r)
      | _ =>
        match parseMembers fuel rest with
        | some (fs, r) => some (Json.obj fs, r)
        | none => none
    | '[' :: rest =>
      match skipWs rest with
      | ']' :: r => some (Json.arr [], r)
      | _ =>
        match parseElems fuel rest with
        | some (es, r) => some (Json.arr es, r)
        | none => none
    | 't' :: 'r' :: 'u' :: 'e' :: r => some (Json.bool true, r)
    | 'f' :: 'a' :: 'l' :: 's' :: 'e' :: r => some (Json.bool false, r)
    | 'n' :: 'u' :: 'l' :: 'l' :: r => some (Json.null, r)
    | rest => parseNumber rest

/-- Members of a JSON object after the opening brace (at least one member). -/
def parseMembers : Nat → List Char → Option (List (String × Json) × List Char)
  | 0, _ => none
  | Nat.succ fuel, input =>
    match skipWs input with
    | '"' :: rest =>
      match parseStringBody rest with
      | some (k, r1) =>
        match skipWs r1 with
        | ':' :: r2 =>
          match parseValue fuel r2 with
          | some (v, r3) =>
            match skipWs r3 with
            | ',' :: r4 =>
              match parseMembers fuel r4 with
              | some (fs, r5) => some ((String.mk k, v) :: fs, r5)
              | none => none
            | '\x7d' :: r4 => some ([(String.mk k, v)], r4)
            | _ => none
          | none => none
        | _ => none
      | none => none
    | _ => none

/-- Elements of a JSON array after the opening bracket (at least one). -/
def parseElems : Nat → List Char → Option (List Json × List Char)
  | 0, _ => none
  | Nat.succ fuel, input =>
    match parseValue fuel input with
    | some (v, r) =>
      match skipWs r with
      | ',' :: r2 =>
        match parseElems fuel r2 with
        | some (es, r3) => some (v :: es, r3)
        | none => none
      | ']' :: r2 => some ([v], r2)
      | _ => none
    | none => none

end

/-- Models `json_tokener_parse`: NULL (`none`) when the body is not
well-formed JSON, otherwise the parsed value. -/
def json_tokener_parse (s : String) : Option Json :=
  match parseValue (s.data.length + 1) s.data with
  | some (j, _) => some j
  | none => none

/-- Models a bounded `strncpy` of `n` bytes followed by explicit NUL
termination (`strncpy(dst, src, n); dst[n] = 0`): the stored string is the
first `n` characters of the source. -/
def strncpy_trunc (n : Nat) (s : String) : String :=
  String.mk (s.data.take n)

/-- The `DBISClient` struct (lines 27-32): `base_url[256]`, `token[512]`,
`user_id[64]`, `is_logged_in`. -/
structure DBISClient where
  base_url : String
  token : String
  user_id : String
  is_logged_in : Bool
deriving DecidableEq, Repr

/-- Models `init_client` (lines 74-80): `strncpy` of at most 255 characters
of the base URL, empty token and user id, not logged in. -/
def init_client (base_url : String) : DBISClient :=
  { base_url := strncpy_trunc 255 base_url
    token := ""
    user_id := ""
    is_logged_in := false }

/-- One HTTP exchange as observed by a handler: `curl_easy_init` returning
NULL, `curl_easy_perform` failing (carrying `curl_easy_strerror(res)` and
whatever incomplete response body was accumulated), or a completed exchange
with an HTTP status code and response body. -/
inductive Exchange where
  | curlInitFail
  | transportError (cause : String) (received_body : String)
  | response (http_code : Nat) (body : String)
deriving DecidableEq, Repr

/-- What `curl_easy_strerror(CURLE_OK)` yields; printed by the handlers'
error paths when the failure was HTTP-level rather than transport-level. -/
def curl_ok_strerror : String := "No error"

/-- The observable result of one handler invocation: the C return value,
the session afterwards, the outcome-reporting lines printed (stdout and
stderr merged in print order), and how many `curl_easy_perform` calls were
made. -/
structure HandlerResult where
  ok : Bool
  client : DBISClient
  output : List String
  network_calls : Nat
deriving DecidableEq, Repr

/-- The spec's outcome taxonomy (spec section 3, "Response Outcome").  This
definition follows the spec's words, for the refinement claims; the mapping
from an exchange follows the source's single test
`res != CURLE_OK || http_code >= 400`. -/
inductive Outcome where
  | transportError (cause : String)
  | httpError (status : Nat) (body : String)
  | success (status : Nat) (body : String)
deriving DecidableEq, Repr

/-- Classification of an exchange by the source's branch conditions:
transport failure first, then HTTP status at least 400, else success. -/
def classify : Exchange → Outcome
  | Exchange.curlInitFail => Outcome.transportError "curl_easy_init failed"
  | Exchange.transportError cause _ => Outcome.transportError cause
  | Exchange.response code body =>
    if 400 ≤ code then Outcome.httpError code body else Outcome.success code body

/-- The JSON payload built by `register_user` (lines 121-133): the four
required fields always, `dateOfBirth` and `phoneNumber` only when the
collected input is non-empty (`strlen(...) > 0`). -/
def register_payload (username email password full_name date_of_birth phone_number : String) :
    List (String × Json) :=
  [("username", Json.str username), ("email", Json.str email),
   ("password", Json.str password), ("fullName", Json.str full_name)]
  ++ (if date_of_birth.length > 0 then [("dateOfBirth", Json.str date_of_birth)] else [])
  ++ (if phone_number.length > 0 then [("phoneNumber", Json.str phone_number)] else [])

/-- The JSON payload built by `login` (lines 225-227). -/
def login_payload (email password : String) : List (String × Json) :=
  [("email", Json.str email), ("password", Json.str password)]

/-- The JSON payload built by `grant_role`/`revoke_role` (lines 347-349 and
443-445). -/
def role_payload (user_address role : String) : List (String × Json) :=
  [("userAddress", Json.str user_address), ("role", Json.str role)]

/-- The response-processing tail of `register_user` (lines 169-191): looks
up `user`, `user.id` and `token`; when all three are found, stores the
truncated id and token and sets the logged-in flag, else leaves the session
untouched and reports the degraded message. -/
def register_apply (c : DBISClient) (response_json : Option Json) :
    DBISClient × List String :=
  match jsonGetOpt response_json "user" with
  | some user_obj =>
    match jsonGet user_obj "id", jsonGetOpt response_json "token" with
    | some user_id_obj, some token_obj =>
      let c' := { c with
        user_id := strncpy_trunc 63 (json_object_get_string user_id_obj)
        token := strncpy_trunc 511 (json_object_get_string token_obj)
        is_logged_in := true }
      (c', ["Registration successful. User ID: " ++ c'.user_id,
            "You are now logged in."])
    | _, _ => (c, ["Registration successful but couldn\x27t parse response."])
  | none => (c, ["Registration successful but couldn\x27t parse response."])

/-- Models `register_user` (lines 83-204).  Inputs that the C code collects
from the terminal are parameters; the exchange performed by libcurl is the
`exch` argument. -/
def register_user (c : DBISClient)
    (username email password full_name date_of_birth phone_number : String)
    (exch : Exchange) : HandlerResult :=
  let _payload := register_payload username email password full_name date_of_birth phone_number
  match exch with
  | Exchange.curlInitFail => ⟨false, c, [], 0⟩
  | Exchange.transportError cause rbody =>
    ⟨false, c, ["Registration failed: " ++ cause, "Server response: " ++ rbody], 1⟩
  | Exchange.response code body =>
    if 400 ≤ code then
      ⟨false, c, ["Registration failed: " ++ curl_ok_strerror,
                  "Server response: " ++ body], 1⟩
    else
      ⟨true, (register_apply c (json_tokener_parse body)).1,
             (register_apply c (json_tokener_parse body)).2, 1⟩

/-- The response-processing tail of `login` (lines 263-304): same session
update as registration, plus the display-name fallback chain
`fullName → username → "User"` and the roles line. -/
def login_apply (c : DBISClient) (response_json : Option Json) :
    DBISClient × List String :=
  match jsonGetOpt response_json "user" with
  | some user_obj =>
    match jsonGet user_obj "id", jsonGetOpt response_json "token" with
    | some user_id_obj, some token_obj =>
      let c' := { c with
        user_id := strncpy_trunc 63 (json_object_get_string user_id_obj)
        token := strncpy_trunc 511 (json_object_get_string token_obj)
        is_logged_in := true }
      let display_name :=
        match jsonGet user_obj "fullName" with
        | some fn => json_object_get_string fn
        | none =>
          match jsonGet user_obj "username" with
          | some un => json_object_get_string un
          | none => "User"
      let roles_lines :=
        match jsonGet user_obj "roles" with
        | some roles_obj => ["Your roles: " ++ rolesJoined roles_obj]
        | none => []
      (c', ("Login successful. Welcome, " ++ display_name ++ "!") :: roles_lines)
    | _, _ => (c, ["Login successful but couldn\x27t parse response."])
  | none => (c, ["Login successful but couldn\x27t parse response."])

/-- Models `login` (lines 207-317). -/
def login (c : DBISClient) (_email _password : String) (exch : Exchange) :
    HandlerResult :=
  let _payload := login_payload _email _password
  match exch with
  | Exchange.curlInitFail => ⟨false, c, [], 0⟩
  | Exchange.transportError cause rbody =>
    ⟨false, c, ["Login failed: " ++ cause, "Server response: " ++ rbody], 1⟩
  | Exchange.response code body =>
    if 400 ≤ code then
      ⟨false, c, ["Login failed: " ++ curl_ok_strerror,
                  "Server response: " ++ body], 1⟩
    else
      ⟨true, (login_apply c (json_tokener_parse body)).1,
             (login_apply c (json_tokener_parse body)).2, 1⟩

/-- Models `grant_role` (lines 320-413): the logged-in guard runs before any
libcurl work, so the unauthenticated path performs zero network calls and
leaves the session untouched. -/
def grant_role (c : DBISClient) (user_address role : String) (exch : Exchange) :
    HandlerResult :=
  if !c.is_logged_in then
    ⟨false, c, ["You must login first."], 0⟩
  else
    let _payload := role_payload user_address role
    match exch with
    | Exchange.curlInitFail => ⟨false, c, [], 0⟩
    | Exchange.transportError cause rbody =>
      ⟨false, c, ["Failed to grant role: " ++ cause, "Server response: " ++ rbody], 1⟩
    | Exchange.response code body =>
      if 400 ≤ code then
        ⟨false, c, ["Failed to grant role: " ++ curl_ok_strerror,
                    "Server response: " ++ body], 1⟩
      else
        match jsonGetOpt (json_tokener_parse body) "transaction" with
        | some tx =>
          match jsonGet tx "hash" with
          | some hash_obj =>
            ⟨true, c, ["Role " ++ role ++ " granted successfully to " ++ user_address,
                       "Transaction hash: " ++ json_object_get_string hash_obj], 1⟩
          | none =>
            ⟨true, c, ["Role granted successfully but couldn\x27t parse transaction details."], 1⟩
        | none =>
          ⟨true, c, ["Role granted successfully but couldn\x27t parse transaction details."], 1⟩

/-- Models `revoke_role` (lines 416-509); identical shape to `grant_role`
with the revoke wording. -/
def revoke_role (c : DBISClient) (user_address role : String) (exch : Exchange) :
    HandlerResult :=
  if !c.is_logged_in then
    ⟨false, c, ["You must login first."], 0⟩
  else
    let _payload := role_payload user_address role
    match exch with
    | Exchange.curlInitFail => ⟨false, c, [], 0⟩
    | Exchange.transportError cause rbody =>
      ⟨false, c, ["Failed to revoke role: " ++ cause, "Server response: " ++ rbody], 1⟩
    | Exchange.response code body =>
      if 400 ≤ code then
        ⟨false, c, ["Failed to revoke role: " ++ curl_ok_strerror,
                    "Server response: " ++ body], 1⟩
      else
        match jsonGetOpt (json_tokener_parse body) "transaction" with
        | some tx =>
          match jsonGet tx "hash" with
          | some hash_obj =>
            ⟨true, c, ["Role " ++ role ++ " revoked successfully from " ++ user_address,
                       "Transaction hash: " ++ json_object_get_string hash_obj], 1⟩
          | none =>
            ⟨true, c, ["Role revoked successfully but couldn\x27t parse transaction details."], 1⟩
        | none =>
          ⟨true, c, ["Role revoked successfully but couldn\x27t parse transaction details."], 1⟩

/-- Models `logout` (lines 512-517): clears token, user id and the flag,
prints the confirmation; `void` in C, it cannot fail and touches no network
resource (`ok := true`, zero network calls). -/
def logout (c : DBISClient) : HandlerResult :=
  ⟨true, { c with token := "", user_id := "", is_logged_in := false },
   ["Logged out successfully."], 0⟩

/-- Does `pat` match literally at the head of `hay`?  (The comparison loop
inside `strstr`.) -/
def litMatch : List Char → List Char → Bool
  | _, [] => true
  | [], _ :: _ => false
  | h :: hs, p :: ps => if h = p then litMatch hs ps else false

/-- Models `strstr`: the index of the first occurrence of `pat` in `hay`,
or `none` when there is none.  (`strstr` with an empty needle returns the
haystack itself, index 0.) -/
def findSub : List Char → List Char → Option Nat
  | [], pat => if litMatch [] pat then some 0 else none
  | c :: t, pat =>
    if litMatch (c :: t) pat then some 0
    else (findSub t pat).map (fun n => n + 1)

/-- Models `strchr`: the index of the first occurrence of `ch`, if any. -/
def strchrIdx : List Char → Char → Option Nat
  | [], _ => none
  | c :: t, ch => if c = ch then some 0 else (strchrIdx t ch).map (fun n => n + 1)

/-- One field scan of `client_parse_json_response`: `strstr` for the key
pattern, skip past it, `strchr` for the closing quote, and the characters in
between.  `none` when the pattern is absent or the closing quote missing. -/
def scanField (js : List Char) (key : List Char) : Option (List Char) :=
  match findSub js key with
  | none => none
  | some i =>
    match strchrIdx (js.drop (i + key.length)) '"' with
    | none => none
    | some j => some ((js.drop (i + key.length)).take j)

/-- The length clamp before each `strncpy` in `client_parse_json_response`
(`if (len >= size) len = size - 1`). -/
def truncTo (size : Nat) (v : List Char) : List Char :=
  if size ≤ v.length then v.take (size - 1) else v

/-- The key pattern scanned for the status field. -/
def statusKey : List Char := "\"status\":\"".data

/-- The key pattern scanned for the message field. -/
def messageKey : List Char := "\"message\":\"".data

/-- The key pattern scanned for the optional user field. -/
def userKey : List Char := "\"user\":\"".data

/-- The buffers written by `client_parse_json_response` on a 0 return:
`user = none` when no user buffer was supplied (NULL) or its size was 0
(the buffer is then left untouched). -/
structure CParseOut where
  status : String
  message : String
  user : Option String
deriving DecidableEq, Repr

/-- Models `client_parse_json_response` (client.c lines 121-186) for
non-NULL status/message buffers.  `user_buf = some n` supplies a user
buffer of size `n`; `none` models passing NULL.  The function returns
`none` exactly where the C code returns -1. -/
def client_parse_json_response (json_str : String)
    (status_size message_size : Nat) (user_buf : Option Nat) : Option CParseOut :=
  match scanField json_str.data statusKey with
  | none => none
  | some sv =>
    match scanField json_str.data messageKey with
    | none => none
    | some mv =>
      let u : Option String :=
        match user_buf with
        | none => none
        | some user_size =>
          if 0 < user_size then
            some (String.mk (truncTo user_size ((scanField json_str.data userKey).getD [])))
          else none
      some ⟨String.mk (truncTo status_size sv), String.mk (truncTo message_size mv), u⟩

/-- A scan for `key` fails (contributing a -1 return) exactly when the key
pattern is absent from the input or no closing quote follows it. -/
def fieldIncompleteOrAbsent (js key : List Char) : Prop :=
  findSub js key = none ∨
  ∃ i, findSub js key = some i ∧ strchrIdx (js.drop (i + key.length)) '"' = none

/-- A session transition that is either a no-op, a joint update of
`user_id`, `token` and `is_logged_in` (the three fields assigned together,
as in the success paths of registration and login, with the stored strings
bounded by the struct buffer sizes), or a joint clear (logout). -/
def SessionStep (c c' : DBISClient) : Prop :=
  c' = c ∨
  (∃ u t, u.length ≤ 63 ∧ t.length ≤ 511 ∧
    c' = { c with user_id := u, token := t, is_logged_in := true }) ∨
  c' = { c with user_id := "", token := "", is_logged_in := false }

/-- The atomicity shape claimed by the spec: the session is either exactly
its pre-call state, or has `token`, `user_id` and `is_logged_in` updated
together (set jointly, or cleared jointly). -/
def SessionAtomic (c c' : DBISClient) : Prop :=
  c' = c ∨
  (∃ u t, c' = { c with user_id := u, token := t, is_logged_in := true }) ∨
  c' = { c with user_id := "", token := "", is_logged_in := false }

/-- Session states reachable from startup by any sequence of handler
invocations with arbitrary collected inputs and arbitrary exchanges. -/
inductive Reachable : DBISClient → Prop where
  | boot : ∀ base_url, Reachable (init_client base_url)
  | reg : ∀ c u e p f d ph exch, Reachable c →
      Reachable ((register_user c u e p f d ph exch).client)
  | log : ∀ c e p exch, Reachable c →
      Reachable ((login c e p exch).client)
  | grant : ∀ c a r exch, Reachable c →
      Reachable ((grant_role c a r exch).client)
  | revoke : ∀ c a r exch, Reachable c →
      Reachable ((revoke_role c a r exch).client)
  | out : ∀ c, Reachable c → Reachable ((logout c).client)

/-- Substring containment, via the embedded `strstr`. -/
def strContains (s sub : String) : Bool :=
  (findSub s.data sub.data).isSome

theorem strncpy_trunc_length_le (n : Nat) (s : String) :
    (strncpy_trunc n s).length ≤ n := by
  show (s.data.take n).length ≤ n
  simp [List.length_take]

theorem register_apply_step (c : DBISClient) (j : Option Json) :
    SessionStep c (register_apply c j).1 := by
  unfold register_apply
  split
  · split
    · exact Or.inr (Or.inl ⟨_, _, strncpy_trunc_length_le _ _,
        strncpy_trunc_length_le _ _, rfl⟩)
    · exact Or.inl rfl
  · exact Or.inl rfl

theorem login_apply_step (c : DBISClient) (j : Option Json) :
    SessionStep c (login_apply c j).1 := by
  unfold login_apply
  split
  · split
    · exact Or.inr (Or.inl ⟨_, _, strncpy_trunc_length_le _ _,
        strncpy_trunc_length_le _ _, rfl⟩)
    · exact Or.inl rfl
  · exact Or.inl rfl

theorem register_user_step (c : DBISClient)
    (u e p f d ph : String) (exch : Exchange) :
    SessionStep c (register_user c u e p f d ph exch).client := by
  unfold register_user
  split
  · exact Or.inl rfl
  · exact Or.inl rfl
  · split
    · exact Or.inl rfl
    · exact register_apply_step c _

theorem login_step (c : DBISClient) (e p : String) (exch : Exchange) :
    SessionStep c (login c e p exch).client := by
  unfold login
  split
  · exact Or.inl rfl
  · exact Or.inl rfl
  · split
    · exact Or.inl rfl
    · exact login_apply_step c _

theorem grant_role_client_eq (c : DBISClient) (a r : String) (exch : Exchange) :
    (grant_role c a r exch).client = c := by
  unfold grant_role
  split
  · rfl
  · split
    · rfl
    · rfl
    · split
      · rfl
      · split
        · split <;> rfl
        · rfl

theorem revoke_role_client_eq (c : DBISClient) (a r : String) (exch : Exchange) :
    (revoke_role c a r exch).client = c := by
  unfold revoke_role
  split
  · rfl
  · split
    · rfl
    · rfl
    · split
      · rfl
      · split
        · split <;> rfl
        · rfl

theorem logout_step (c : DBISClient) : SessionStep c (logout c).client :=
  Or.inr (Or.inr rfl)

theorem sessionStep_atomic {c c' : DBISClient} (h : SessionStep c c') :
    SessionAtomic c c' := by
  rcases h with h | ⟨u, t, _, _, h⟩ | h
  · exact Or.inl h
  · exact Or.inr (Or.inl ⟨u, t, h⟩)
  · exact Or.inr (Or.inr h)

/-- Claim C1: in any session without a token (not logged in), the
auth-required handlers `grant_role` and `revoke_role` return failure,
report that the user must log in first, perform zero network calls, and
leave the session unchanged. -/
theorem grant_revoke_require_login (c : DBISClient) (a r : String)
    (exch : Exchange) (h : c.is_logged_in = false) :
    ((grant_role c a r exch).ok = false ∧
     (grant_role c a r exch).client = c ∧
     (grant_role c a r exch).network_calls = 0 ∧
     "You must login first." ∈ (grant_role c a r exch).output) ∧
    ((revoke_role c a r exch).ok = false ∧
     (revoke_role c a r exch).client = c ∧
     (revoke_role c a r exch).network_calls = 0 ∧
     "You must login first." ∈ (revoke_role c a r exch).output) := by
  unfold grant_role revoke_role
  rw [h]
  simp

/-- Witness for `grant_revoke_require_login` at the startup session. -/
theorem grant_revoke_require_login_witness :
    (init_client "http://localhost:3000").is_logged_in = false ∧
    (grant_role (init_client "http://localhost:3000") "0xabc" "USER_ROLE"
      (Exchange.response 200 "")).network_calls = 0 ∧
    (revoke_role (init_client "http://localhost:3000") "0xabc" "USER_ROLE"
      (Exchange.response 200 "")).network_calls = 0 :=
  ⟨rfl,
   (grant_revoke_require_login (init_client "http://localhost:3000") "0xabc"
     "USER_ROLE" (Exchange.response 200 "") rfl).1.2.2.1,
   (grant_revoke_require_login (init_client "http://localhost:3000") "0xabc"
     "USER_ROLE" (Exchange.response 200 "") rfl).2.2.2.1⟩

/-- Claim C2: every handler invocation, with arbitrary collected inputs and
arbitrary exchange, either leaves the session exactly in its pre-call state
or updates `token`, `user_id` and `is_logged_in` together (jointly set, or
jointly cleared); no invocation changes only some of the three fields. -/
theorem handler_session_atomicity (c : DBISClient) :
    (∀ u e p f d ph exch,
      SessionAtomic c ((register_user c u e p f d ph exch).client)) ∧
    (∀ e p exch, SessionAtomic c ((login c e p exch).client)) ∧
    (∀ a r exch, SessionAtomic c ((grant_role c a r exch).client)) ∧
    (∀ a r exch, SessionAtomic c ((revoke_role c a r exch).client)) ∧
    SessionAtomic c ((logout c).client) :=
  ⟨fun u e p f d ph exch => sessionStep_atomic (register_user_step c u e p f d ph exch),
   fun e p exch => sessionStep_atomic (login_step c e p exch),
   fun a r exch => Or.inl (grant_role_client_eq c a r exch),
   fun a r exch => Or.inl (revoke_role_client_eq c a r exch),
   sessionStep_atomic (logout_step c)⟩

/-- A login response whose `user.id` and `token` values are empty strings:
the keys are present, so the code sets the logged-in flag while storing
empty credentials. -/
def empty_cred_body : String := "\x7b\"user\":\x7b\"id\":\"\"\x7d,\"token\":\"\"\x7d"

/-- Counterexample to claim C3 as stated: a reachable session (boot, then a
login answered 200 with body whose `user.id` and `token` values are empty
strings) has `is_logged_in = true` while `token` and `user_id` are both
empty, so the claimed "authenticated iff both fields non-empty" invariant
fails in the forward direction. -/
theorem auth_flag_iff_fields_counterexample :
    ¬ (∀ c, Reachable c →
        (c.is_logged_in = true ↔ (c.token ≠ "" ∧ c.user_id ≠ ""))) := by
  intro h
  have hr : Reachable ((login (init_client "http://localhost:3000") "a@b.c" "pw"
      (Exchange.response 200 empty_cred_body)).client) :=
    Reachable.log _ _ _ _ (Reachable.boot _)
  have h2 := (h _ hr).mp (by decide)
  exact h2.1 (by decide)

/-- Claim C3 (amended): in every reachable session state, if
`is_logged_in` is false then `token` and `user_id` are both empty (so a
non-empty field implies authenticated); when `is_logged_in` is true the two
fields were assigned together from the response, but they may be empty when
the server returned empty-string values. -/
theorem auth_flag_invariant_amended (c : DBISClient) (h : Reachable c) :
    c.is_logged_in = false → c.token = "" ∧ c.user_id = "" := by
  induction h with
  | boot b => intro _; exact ⟨rfl, rfl⟩
  | reg c u e p f d ph exch hc ih =>
    intro hflag
    rcases register_user_step c u e p f d ph exch with heq | ⟨u', t', _, _, heq⟩ | heq
    · rw [heq] at hflag ⊢; exact ih hflag
    · rw [heq] at hflag; simp at hflag
    · rw [heq]; exact ⟨rfl, rfl⟩
  | log c e p exch hc ih =>
    intro hflag
    rcases login_step c e p exch with heq | ⟨u', t', _, _, heq⟩ | heq
    · rw [heq] at hflag ⊢; exact ih hflag
    · rw [heq] at hflag; simp at hflag
    · rw [heq]; exact ⟨rfl, rfl⟩
  | grant c a r exch hc ih =>
    intro hflag
    rw [grant_role_client_eq c a r exch] at hflag ⊢
    exact ih hflag
  | revoke c a r exch hc ih =>
    intro hflag
    rw [revoke_role_client_eq c a r exch] at hflag ⊢
    exact ih hflag
  | out c hc ih => intro _; exact ⟨rfl, rfl⟩

/-- Witness for `auth_flag_invariant_amended` at the startup session. -/
theorem auth_flag_invariant_amended_witness :
    (init_client "http://localhost:3000").is_logged_in = false ∧
    ((init_client "http://localhost:3000").token = "" ∧
     (init_client "http://localhost:3000").user_id = "") :=
  ⟨rfl, auth_flag_invariant_amended _ (Reachable.boot "http://localhost:3000") rfl⟩

/-- Claim C8: logout is a pure session transition that always succeeds,
makes no network call, clears all three fields together, is idempotent, and
on an already-logged-out session returns that same empty session. -/
theorem logout_pure_idempotent (c : DBISClient) :
    (logout c).client =
      { base_url := c.base_url, token := "", user_id := "", is_logged_in := false } ∧
    (logout c).ok = true ∧
    (logout c).network_calls = 0 ∧
    (logout ((logout c).client)).client = (logout c).client ∧
    (c.token = "" → c.user_id = "" → c.is_logged_in = false →
      (logout c).client = c) := by
  refine ⟨rfl, rfl, rfl, rfl, ?_⟩
  intro h1 h2 h3
  cases c
  simp only [logout] at h1 h2 h3 ⊢
  subst h1; subst h2; subst h3
  rfl

/-- Witness for `logout_pure_idempotent`: at the logged-out startup session
the inner hypotheses hold and logout is the identity. -/
theorem logout_pure_idempotent_witness :
    (logout (init_client "http://localhost:3000")).client =
      init_client "http://localhost:3000" :=
  (logout_pure_idempotent (init_client "http://localhost:3000")).2.2.2.2 rfl rfl rfl

theorem strncpy_trunc_ne_of_lt (n : Nat) (s : String) (h : n < s.length) :
    strncpy_trunc n s ≠ s := by
  intro heq
  have h2 := congrArg String.length heq
  have h3 : (strncpy_trunc n s).length = min n s.length :=
    List.length_take n s.data
  rw [h3] at h2
  omega

/-- Claim C10: every reachable session state has `user_id` of length at
most 63 and `token` of length at most 511 (the struct buffer sizes minus
the NUL terminator), and the login/register success path stores the
truncated 63/511-character prefixes of the response values, so a token
longer than 511 characters is stored differing from the server-issued
one. -/
theorem session_field_length_bounds :
    (∀ c, Reachable c → c.user_id.length ≤ 63 ∧ c.token.length ≤ 511) ∧
    (∀ c u t,
      (login_apply c (some (Json.obj [("user", Json.obj [("id", Json.str u)]),
          ("token", Json.str t)]))).1.user_id = strncpy_trunc 63 u ∧
      (login_apply c (some (Json.obj [("user", Json.obj [("id", Json.str u)]),
          ("token", Json.str t)]))).1.token = strncpy_trunc 511 t ∧
      (register_apply c (some (Json.obj [("user", Json.obj [("id", Json.str u)]),
          ("token", Json.str t)]))).1.user_id = strncpy_trunc 63 u ∧
      (register_apply c (some (Json.obj [("user", Json.obj [("id", Json.str u)]),
          ("token", Json.str t)]))).1.token = strncpy_trunc 511 t ∧
      (511 < t.length →
        (login_apply c (some (Json.obj [("user", Json.obj [("id", Json.str u)]),
            ("token", Json.str t)]))).1.token ≠ t)) := by
  constructor
  · intro c h
    induction h with
    | boot b => exact ⟨Nat.zero_le _, Nat.zero_le _⟩
    | reg c u e p f d ph exch hc ih =>
      rcases register_user_step c u e p f d ph exch with heq | ⟨u', t', hu, ht, heq⟩ | heq
      · rw [heq]; exact ih
      · rw [heq]; exact ⟨hu, ht⟩
      · rw [heq]; exact ⟨Nat.zero_le _, Nat.zero_le _⟩
    | log c e p exch hc ih =>
      rcases login_step c e p exch with heq | ⟨u', t', hu, ht, heq⟩ | heq
      · rw [heq]; exact ih
      · rw [heq]; exact ⟨hu, ht⟩
      · rw [heq]; exact ⟨Nat.zero_le _, Nat.zero_le _⟩
    | grant c a r exch hc ih => rw [grant_role_client_eq c a r exch]; exact ih
    | revoke c a r exch hc ih => rw [revoke_role_client_eq c a r exch]; exact ih
    | out c hc ih => exact ⟨Nat.zero_le _, Nat.zero_le _⟩
  · intro c u t
    refine ⟨rfl, rfl, rfl, rfl, ?_⟩
    intro hlen
    exact fun heq => strncpy_trunc_ne_of_lt 511 t (by omega) heq

/-- A server-issued token of 512 characters, one more than the client's
token buffer can keep. -/
def long_token : String := String.mk (List.replicate 512 'a')

/-- Witness for `session_field_length_bounds`: the bounds at the startup
session, and the silent truncation at a concrete 512-character token. -/
theorem session_field_length_bounds_witness :
    ((init_client "u").user_id.length ≤ 63 ∧ (init_client "u").token.length ≤ 511) ∧
    511 < long_token.length ∧
    (login_apply (init_client "u") (some (Json.obj
      [("user", Json.obj [("id", Json.str "u1")]),
       ("token", Json.str long_token)]))).1.token ≠ long_token := by
  have hlen : 511 < long_token.length := by
    show 511 < (List.replicate 512 'a').length
    rw [List.length_replicate]
    omega
  exact ⟨session_field_length_bounds.1 _ (Reachable.boot "u"), hlen,
    (session_field_length_bounds.2 (init_client "u") "u1" long_token).2.2.2.2 hlen⟩

/-- The synthetic login success body of the round-trip property. -/
def login_round_body : String :=
  "\x7b\"user\":\x7b\"id\":\"u1\",\"fullName\":\"Alice\",\"roles\":[\"ADMIN_ROLE\",\"USER_ROLE\"]\x7d,\"token\":\"tok123\"\x7d"

/-- The login invocation of the round-trip property: HTTP 200 with the
synthetic body, from the startup session. -/
def login_round_result : HandlerResult :=
  login (init_client "http://localhost:3000") "alice@example.com" "pw"
    (Exchange.response 200 login_round_body)

/-- Claim C4: the round-trip login at the synthetic success body stores
`user_id = "u1"`, `bearer_token = "tok123"`, sets the authenticated flag,
reports display name "Alice" (the `fullName` link of the fallback chain),
and prints the roles comma-joined in server order. -/
theorem login_round_trip :
    login_round_result.client.user_id = "u1" ∧
    login_round_result.client.token = "tok123" ∧
    login_round_result.client.is_logged_in = true ∧
    login_round_result.ok = true ∧
    "Login successful. Welcome, Alice!" ∈ login_round_result.output ∧
    "Your roles: ADMIN_ROLE, USER_ROLE" ∈ login_round_result.output := by
  decide

theorem login_apply_no_token (c : DBISClient) (j : Option Json)
    (h : jsonGetOpt j "token" = none) :
    login_apply c j = (c, ["Login successful but couldn\x27t parse response."]) := by
  unfold login_apply
  split
  · split
    · simp_all
    · rfl
  · rfl

/-- Claim C5: a login whose exchange completes below HTTP 400 but whose
body has no `token` field leaves the session unchanged, reports the soft
degraded message, and still returns success. -/
theorem login_missing_token_soft_degrade (c : DBISClient) (e p : String)
    (code : Nat) (body : String) (hcode : code < 400)
    (htok : jsonGetOpt (json_tokener_parse body) "token" = none) :
    (login c e p (Exchange.response code body)).ok = true ∧
    (login c e p (Exchange.response code body)).client = c ∧
    "Login successful but couldn\x27t parse response." ∈
      (login c e p (Exchange.response code body)).output := by
  have hform : login c e p (Exchange.response code body) =
      if 400 ≤ code then
        ⟨false, c, ["Login failed: " ++ curl_ok_strerror,
                    "Server response: " ++ body], 1⟩
      else
        ⟨true, (login_apply c (json_tokener_parse body)).1,
               (login_apply c (json_tokener_parse body)).2, 1⟩ := rfl
  rw [hform, if_neg (by omega), login_apply_no_token c _ htok]
  exact ⟨rfl, rfl, by simp⟩

/-- Witness for `login_missing_token_soft_degrade` at a concrete body that
carries `user.id` but no `token`. -/
theorem login_missing_token_soft_degrade_witness :
    (200 : Nat) < 400 ∧
    jsonGetOpt (json_tokener_parse "\x7b\"user\":\x7b\"id\":\"u1\"\x7d\x7d") "token" = none ∧
    (login (init_client "http://localhost:3000") "a@b.c" "pw"
      (Exchange.response 200 "\x7b\"user\":\x7b\"id\":\"u1\"\x7d\x7d")).client =
      init_client "http://localhost:3000" :=
  ⟨by omega, rfl,
   (login_missing_token_soft_degrade (init_client "http://localhost:3000")
     "a@b.c" "pw" 200 "\x7b\"user\":\x7b\"id\":\"u1\"\x7d\x7d" (by omega) rfl).2.1⟩

/-- The HTTP 401 body of the login error property. -/
def invalid_cred_body : String := "\x7b\"error\":\"invalid credentials\"\x7d"

/-- Counterexample to claim C6 as stated: at the concrete 401 exchange the
handler's report never contains the status ("401" appears in no output
line); the code prints `curl_easy_strerror(CURLE_OK)` ("No error") and the
raw body, not the HTTP status. -/
theorem login_http_error_counterexample :
    ¬ ∃ line ∈ (login (init_client "http://localhost:3000") "a@b.c" "pw"
        (Exchange.response 401 invalid_cred_body)).output,
      strContains line "401" = true := by
  decide

/-- Claim C6 (amended): a login answered with HTTP status 401 classifies as
`HttpError{401, body}`, the handler stops with failure and the session
unchanged, and the report contains the raw server body verbatim; the
numeric status itself is not part of the reported message (the report shows
the transport error string and the raw body). -/
theorem login_http_error_surfaces_body (c : DBISClient) (e p body : String) :
    classify (Exchange.response 401 body) = Outcome.httpError 401 body ∧
    (login c e p (Exchange.response 401 body)).ok = false ∧
    (login c e p (Exchange.response 401 body)).client = c ∧
    ("Server response: " ++ body) ∈ (login c e p (Exchange.response 401 body)).output := by
  have hform : login c e p (Exchange.response 401 body) =
      ⟨false, c, ["Login failed: " ++ curl_ok_strerror,
                  "Server response: " ++ body], 1⟩ := rfl
  rw [hform]
  refine ⟨rfl, rfl, rfl, ?_⟩
  simp

/-- Claim C7: the registration payload carries no `dateOfBirth` key at all
when that input is blank (likewise `phoneNumber`), while the four required
keys are always present. -/
theorem register_payload_omits_blank_optionals (u e p f d ph : String) :
    (d = "" → "dateOfBirth" ∉ (register_payload u e p f d ph).map Prod.fst) ∧
    (ph = "" → "phoneNumber" ∉ (register_payload u e p f d ph).map Prod.fst) ∧
    "username" ∈ (register_payload u e p f d ph).map Prod.fst ∧
    "email" ∈ (register_payload u e p f d ph).map Prod.fst ∧
    "password" ∈ (register_payload u e p f d ph).map Prod.fst ∧
    "fullName" ∈ (register_payload u e p f d ph).map Prod.fst := by
  unfold register_payload
  refine ⟨fun hd => ?_, fun hph => ?_, ?_, ?_, ?_, ?_⟩ <;>
    by_cases h1 : d.length > 0 <;> by_cases h2 : ph.length > 0 <;>
    simp_all

/-- Witness for `register_payload_omits_blank_optionals` at concrete
registration inputs with both optional fields blank. -/
theorem register_payload_omits_blank_optionals_witness :
    "dateOfBirth" ∉ (register_payload "alice" "a@x.com" "password1"
      "Alice Smith" "" "").map Prod.fst ∧
    "phoneNumber" ∉ (register_payload "alice" "a@x.com" "password1"
      "Alice Smith" "" "").map Prod.fst ∧
    "username" ∈ (register_payload "alice" "a@x.com" "password1"
      "Alice Smith" "" "").map Prod.fst :=
  ⟨(register_payload_omits_blank_optionals "alice" "a@x.com" "password1"
      "Alice Smith" "" "").1 rfl,
   (register_payload_omits_blank_optionals "alice" "a@x.com" "password1"
      "Alice Smith" "" "").2.1 rfl,
   (register_payload_omits_blank_optionals "alice" "a@x.com" "password1"
      "Alice Smith" "" "").2.2.1⟩

theorem litMatch_append_self (key rest : List Char) :
    litMatch (key ++ rest) key = true := by
  induction key with
  | nil => cases rest <;> rfl
  | cons k ks ih => simp [litMatch, ih]

theorem findSub_zero (js key : List Char) (h : litMatch js key = true) :
    findSub js key = some 0 := by
  cases js <;> simp [findSub, h]

theorem findSub_of_first (key rest : List Char) :
    ∀ (a js : List Char), js = a ++ key ++ rest →
      (∀ i, i < a.length → litMatch (js.drop i) key = false) →
      findSub js key = some a.length := by
  intro a
  induction a with
  | nil =>
    intro js hjs _
    subst hjs
    exact findSub_zero _ _ (litMatch_append_self key rest)
  | cons x a' ih =>
    intro js hjs hfirst
    subst hjs
    have h0 : litMatch ((x :: a') ++ key ++ rest) key = false := by
      have h00 := hfirst 0 (by simp)
      simpa using h00
    have hrec := ih (a' ++ key ++ rest) rfl
      (fun i hi => hfirst (i + 1) (Nat.succ_lt_succ hi))
    have hx : (x :: a') ++ key ++ rest = x :: (a' ++ key ++ rest) := rfl
    rw [hx] at h0 ⊢
    have hcond : ¬ (litMatch (x :: (a' ++ key ++ rest)) key = true) := by
      rw [h0]; exact Bool.false_ne_true
    have hunfold : findSub (x :: (a' ++ key ++ rest)) key =
        if litMatch (x :: (a' ++ key ++ rest)) key = true then some 0
        else (findSub (a' ++ key ++ rest) key).map (fun n => n + 1) := rfl
    rw [hunfold, if_neg hcond, hrec]
    rfl

theorem strchrIdx_append (ch : Char) (tail : List Char) :
    ∀ b : List Char, ch ∉ b →
      strchrIdx (b ++ ch :: tail) ch = some b.length := by
  intro b
  induction b with
  | nil => intro _; simp [strchrIdx]
  | cons x b' ih =>
    intro hb
    have hx : ¬ x = ch := fun h => hb (by simp [h])
    have hb' : ch ∉ b' := fun h => hb (List.mem_cons_of_mem _ h)
    simp [strchrIdx, hx, ih hb']

theorem scanField_decomp (key a b tail : List Char)
    (hfirst : ∀ i, i < a.length →
      litMatch ((a ++ key ++ b ++ '"' :: tail).drop i) key = false)
    (hb : '"' ∉ b) :
    scanField (a ++ key ++ b ++ '"' :: tail) key = some b := by
  have h1 : findSub (a ++ key ++ b ++ '"' :: tail) key = some a.length :=
    findSub_of_first key (b ++ '"' :: tail) a _ (by simp [List.append_assoc]) hfirst
  have hdrop : (a ++ key ++ b ++ '"' :: tail).drop (a.length + key.length) =
      b ++ '"' :: tail := by
    rw [show a ++ key ++ b ++ '"' :: tail = (a ++ key) ++ (b ++ '"' :: tail) by
      simp [List.append_assoc]]
    rw [show a.length + key.length = (a ++ key).length by simp [List.length_append]]
    exact List.drop_left _ _
  unfold scanField
  rw [h1]
  show (match strchrIdx ((a ++ key ++ b ++ '"' :: tail).drop (a.length + key.length)) '"' with
        | none => none
        | some j =>
          some (((a ++ key ++ b ++ '"' :: tail).drop (a.length + key.length)).take j)) = some b
  rw [hdrop, strchrIdx_append '"' tail b hb]
  show some ((b ++ '"' :: tail).take b.length) = some b
  rw [List.take_left]

theorem scanField_none_iff (js key : List Char) :
    scanField js key = none ↔ fieldIncompleteOrAbsent js key := by
  unfold scanField fieldIncompleteOrAbsent
  cases h1 : findSub js key with
  | none => simp [h1]
  | some i =>
    cases h2 : strchrIdx (js.drop (i + key.length)) '"' with
    | none => simp [h1, h2]
    | some j => simp [h1, h2]

/-- Claim C9: the socket client's extractor sets `status` (and `message`)
to the text between the first occurrence of the literal pattern
`"status":"` (resp. `"message":"`) and the next double quote, returns -1
(`none`) exactly when the status or the message pattern is absent or
incomplete, and treats `user` as optional: with a user buffer supplied and
the `"user":"` pattern absent it still returns 0 with the user buffer set
to the empty string.  The decomposition hypotheses say the key occurs
first at position `a.length` (no match at any earlier position), the
extracted text contains no quote, and the destination buffers are large
enough to hold it (the C code would otherwise truncate). -/
theorem client_parse_json_response_extraction
    (js a b tail a2 b2 tail2 : List Char)
    (status_size message_size user_size : Nat)
    (hs : js = a ++ statusKey ++ b ++ '"' :: tail)
    (hs1 : ∀ i, i < a.length → litMatch (js.drop i) statusKey = false)
    (hbq : '"' ∉ b)
    (hss : b.length < status_size)
    (hm : js = a2 ++ messageKey ++ b2 ++ '"' :: tail2)
    (hm1 : ∀ i, i < a2.length → litMatch (js.drop i) messageKey = false)
    (hbq2 : '"' ∉ b2)
    (hms : b2.length < message_size)
    (hu : findSub js userKey = none)
    (hus : 0 < user_size) :
    client_parse_json_response (String.mk js) status_size message_size (some user_size) =
      some ⟨String.mk b, String.mk b2, some ""⟩ ∧
    (∀ (js2 : List Char) (ss ms : Nat) (ub : Option Nat),
      client_parse_json_response (String.mk js2) ss ms ub = none ↔
        (fieldIncompleteOrAbsent js2 statusKey ∨
         fieldIncompleteOrAbsent js2 messageKey)) := by
  constructor
  · have hsf : scanField js statusKey = some b := by
      rw [hs]
      exact scanField_decomp statusKey a b tail (hs ▸ hs1) hbq
    have hmf : scanField js messageKey = some b2 := by
      rw [hm]
      exact scanField_decomp messageKey a2 b2 tail2 (hm ▸ hm1) hbq2
    have huf : scanField js userKey = none := by
      unfold scanField
      rw [hu]
    have ht1 : truncTo status_size b = b := by
      unfold truncTo
      rw [if_neg (by omega)]
    have ht2 : truncTo message_size b2 = b2 := by
      unfold truncTo
      rw [if_neg (by omega)]
    have ht3 : truncTo user_size ([] : List Char) = [] := by
      unfold truncTo
      rw [if_neg (by simp; omega)]
    have hd : (String.mk js).data = js := rfl
    simp only [client_parse_json_response, hd, hsf, hmf, huf, hus, if_pos,
      Option.getD, ht1, ht2, ht3]
  · intro js2 ss ms ub
    rw [← scanField_none_iff, ← scanField_none_iff]
    have hd : (String.mk js2).data = js2 := rfl
    unfold client_parse_json_response
    rw [hd]
    cases h1 : scanField js2 statusKey with
    | none => simp [h1]
    | some sv =>
      cases h2 : scanField js2 messageKey with
      | none => simp [h1, h2]
      | some mv => simp [h1, h2]

/-- Witness for `client_parse_json_response_extraction` at the concrete
response text with status "ok", message "done", and no user field. -/
theorem client_parse_json_response_extraction_witness :
    (0 : Nat) < 16 ∧
    client_parse_json_response
      (String.mk "\x7b\"status\":\"ok\",\"message\":\"done\"\x7d".data) 16 16 (some 16) =
      some ⟨"ok", "done", some ""⟩ :=
  ⟨by omega,
   (client_parse_json_response_extraction
     "\x7b\"status\":\"ok\",\"message\":\"done\"\x7d".data
     "\x7b".data "ok".data ",\"message\":\"done\"\x7d".data
     "\x7b\"status\":\"ok\",".data "done".data "\x7d".data
     16 16 16
     (by decide) (by decide) (by decide) (by decide)
     (by decide) (by decide) (by decide) (by decide)
     (by decide) (by omega)).1⟩
